import Mathlib

/-!
# Verification of the ufro-assistant retrieval-augmented answer pipeline

A shallow embedding, in Lean 4, of the core data model and operations of the
`ufro-assistant` repository (a Python RAG system over university regulations),
together with theorems settling the frozen specification claims C1 .. C10.

Modelling conventions:

* Python `str` is modelled by `String`; slicing, `len`, `in`, `.strip()`,
  `.lower()`, `.replace()` and friends are re-implemented over `List Char`
  (Python indexes strings by code point, exactly like `String.data`).
* Python `int` is `Int` (or `Nat` where the source value is a length/count);
  32-bit words inside MD5 are `Nat` reduced explicitly `% 2^32`.
* Python `float` is modelled by `ℚ`.  Every claim settled below depends only
  on exact zero tests, on fixed-point *formatting shape*, or on symbolic
  arithmetic, never on binary floating-point rounding.
* A Python value that may be `None` is an `Option`; a dataclass plus its
  `__post_init__` is a constructor function applying the normalisation step;
  raising is `Except PyErr`; `os.getenv` is a `String → Option String`
  environment oracle; wall-clock reads (`time.time()`) and the network
  (faiss / OpenAI / HTTP) are explicit oracle parameters, matching the spec's
  ruling that those collaborators are external to the core.
-/

/-! ## Python-level exceptions (the error taxonomy the claims distinguish) -/

/-- The Python exception classes that the embedded code can raise or catch.
`fileNotFound` models `FileNotFoundError`, the spec's NotFound condition,
kept distinguishable from every other error. -/
inductive PyErr where
  | fileNotFound (msg : String)
  | valueError (msg : String)
  | typeError (msg : String)
  | runtimeError (msg : String)
  deriving DecidableEq, Repr

/-! ## Python string primitives -/

/-- The six ASCII characters stripped by Python's default `str.strip()`. -/
def pyIsSpace (c : Char) : Bool :=
  c = ' ' || c = '\t' || c = '\n' || c = '\r' || c = Char.ofNat 11 || c = Char.ofNat 12

/-- Python `str.strip()` (default whitespace, ASCII subset). -/
def pyStrip (s : String) : String :=
  String.mk (((s.data.dropWhile pyIsSpace).reverse.dropWhile pyIsSpace).reverse)

/-- Python `str.rstrip()`. -/
def pyRstrip (s : String) : String :=
  String.mk ((s.data.reverse.dropWhile pyIsSpace).reverse)

/-- Python `str.lower()` (ASCII-faithful; the embedded corpus text is
Spanish ASCII plus accented vowels, on which `Char.toLower` agrees). -/
def lowerStr (s : String) : String := String.mk (s.data.map Char.toLower)

/-- Python `str.capitalize()`: first character upper-cased, the rest lowered. -/
def pyCapitalize (s : String) : String :=
  match s.data with
  | [] => ""
  | c :: t => String.mk (Char.toUpper c :: t.map Char.toLower)

/-- `os.path.basename` on a POSIX path: the characters after the last `/`. -/
def basename (s : String) : String :=
  String.mk ((s.data.reverse.takeWhile (fun c => c ≠ '/')).reverse)

/-- Python slicing `s[n:]` by code points. -/
def strDrop (s : String) (n : Nat) : String := String.mk (s.data.drop n)

/-- Python slicing `s[:-n]` (here: drop the last `n` code points). -/
def strDropRight (s : String) (n : Nat) : String :=
  String.mk (s.data.take (s.data.length - n))

/-- Position of the first occurrence of `pat` inside `s` (`str.find` /
`re.search` on a literal pattern), as an index into the character list. -/
def findSub (pat : List Char) : List Char → Option Nat
  | [] => if pat.isPrefixOf ([] : List Char) then some 0 else none
  | c :: t =>
      if pat.isPrefixOf (c :: t) then some 0
      else (findSub pat t).map (· + 1)

/-- Python `pat in s` on strings. -/
def containsSubstr (s pat : String) : Bool := (findSub pat.data s.data).isSome

/-- Propositional form of Python `pat in s`: `pat`'s characters are a
contiguous infix of `s`'s characters. -/
def StrContains (s pat : String) : Prop := pat.data <:+: s.data

instance (s pat : String) : Decidable (StrContains s pat) := by
  unfold StrContains; infer_instance

/-- Python `sep.join(parts)`. -/
def pyJoin (sep : String) : List String → String
  | [] => ""
  | [x] => x
  | x :: y :: t => x ++ sep ++ pyJoin sep (y :: t)

/-- Left-to-right non-overlapping replacement over character lists; the
fuel argument (initialised to the source length, consumed one unit per
emitted source character) makes the recursion structural. -/
def replaceGo (pat rep : List Char) : Nat → List Char → List Char
  | _, [] => []
  | 0, s => s
  | fuel + 1, c :: t =>
      if pat.isPrefixOf (c :: t) then
        rep ++ replaceGo pat rep fuel (t.drop (pat.length - 1))
      else c :: replaceGo pat rep fuel t

/-- Python `s.replace(pat, rep)` for a non-empty pattern (every call site in
the repository uses a non-empty literal pattern). -/
def pyReplace (s pat rep : String) : String :=
  if pat.data = [] then s
  else String.mk (replaceGo pat.data rep.data s.data.length s.data)

/-- Decimal value of a digit run. -/
def digitsToNat (cs : List Char) : Nat :=
  cs.foldl (fun n c => 10 * n + (c.toNat - 48)) 0

/-- Split a character list at the first occurrence of `sep`; `none` when
`sep` does not occur. -/
def splitAtChar (sep : Char) : List Char → Option (List Char × List Char)
  | [] => none
  | c :: t =>
      if c = sep then some ([], t)
      else (splitAtChar sep t).map (fun p => (c :: p.1, p.2))

/-- Python `s.endswith(t)`. -/
def pyEndsWith (s t : String) : Bool := t.data.isSuffixOf s.data

/-- Python `int(...)` on the decimal literals that appear as configuration
defaults: optional sign, then digits. -/
def parsePyInt (s : String) : Option Int :=
  match (pyStrip s).data with
  | '-' :: rest =>
      if rest ≠ [] ∧ rest.all Char.isDigit then some (-(digitsToNat rest : Int)) else none
  | '+' :: rest =>
      if rest ≠ [] ∧ rest.all Char.isDigit then some ((digitsToNat rest : Int)) else none
  | cs => if cs ≠ [] ∧ cs.all Char.isDigit then some ((digitsToNat cs : Int)) else none

/-- `float(...)` on the plain decimal literals that appear as configuration
defaults (`"0.7"` and friends); a subset of Python's grammar sufficient for
every value the embedded code parses. -/
def parsePyFloat (s : String) : Option ℚ :=
  let t := (pyStrip s).data
  match splitAtChar '.' t with
  | none => if t ≠ [] ∧ t.all Char.isDigit then some ((digitsToNat t : ℚ)) else none
  | some (a, b) =>
      if splitAtChar '.' b = none ∧ a.all Char.isDigit ∧ b.all Char.isDigit ∧ a ++ b ≠ [] then
        some ((digitsToNat a : ℚ) + (digitsToNat b : ℚ) / (10 : ℚ) ^ b.length)
      else none

/-! ## Rounding and fixed-point formatting (Python `round` / `"%.3f"`) -/

/-- Round to the nearest integer, ties to even (the rule Python's `round`
and `str.format` follow on exactly representable values). -/
def roundHalfEven (x : ℚ) : Int :=
  let f : Int := ⌊x⌋
  let r : ℚ := x - (f : ℚ)
  if r < 1/2 then f
  else if 1/2 < r then f + 1
  else if f % 2 = 0 then f else f + 1

/-- Python `round(x, k)`. -/
def pyRound (k : Nat) (x : ℚ) : ℚ :=
  (roundHalfEven (x * (10 : ℚ) ^ k) : ℚ) / (10 : ℚ) ^ k

/-- Decimal digits of `n`, most significant first. -/
def natDigits (n : Nat) : List Char :=
  (Nat.toDigits 10 n)

/-- The decimal digit character of `n % 10`. -/
def decDigitChar (n : Nat) : Char := Char.ofNat (48 + n % 10)

/-- The three decimal digits of a natural below 1000 (the fractional field
of a `%.3f` rendering), most significant first. -/
def pad3Chars (n : Nat) : List Char :=
  [decDigitChar (n / 100), decDigitChar (n / 10), decDigitChar n]

/-- Left-pad a natural below 1000 to exactly three decimal digits. -/
def pad3 (n : Nat) : String := String.mk (pad3Chars n)

/-- Python `f"{x:.3f}"`: fixed-point, exactly three digits after the dot. -/
def fmtFixed3 (x : ℚ) : String :=
  let m : Int := roundHalfEven (x * 1000)
  let sign : String := if x < 0 then "-" else ""
  sign ++ String.mk (natDigits (m.natAbs / 1000)) ++ "." ++ pad3 (m.natAbs % 1000)

/-! ## UTF-8 and MD5 (`hashlib.md5` over `str.encode('utf-8')`) -/

/-- UTF-8 encoding of one code point, as byte values. -/
def utf8Char (n : Nat) : List Nat :=
  if n < 128 then [n]
  else if n < 2048 then [192 + n / 64, 128 + n % 64]
  else if n < 65536 then [224 + n / 4096, 128 + n / 64 % 64, 128 + n % 64]
  else [240 + n / 262144, 128 + n / 4096 % 64, 128 + n / 64 % 64, 128 + n % 64]

/-- `s.encode('utf-8')` as a byte list. -/
def utf8Encode (s : String) : List Nat :=
  s.data.foldr (fun c acc => utf8Char c.toNat ++ acc) []

def M32 : Nat := 4294967296

def mask32 : Nat := 4294967295

/-- 32-bit left rotation on a word already reduced below `2^32`. -/
def rotl32 (x n : Nat) : Nat := ((x <<< n) % M32) + (x >>> (32 - n))

/-- The 64 MD5 sine-derived constants (RFC 1321). -/
def md5K : List Nat :=
  [0xd76aa478, 0xe8c7b756, 0x242070db, 0xc1bdceee,
   0xf57c0faf, 0x4787c62a, 0xa8304613, 0xfd469501,
   0x698098d8, 0x8b44f7af, 0xffff5bb1, 0x895cd7be,
   0x6b901122, 0xfd987193, 0xa679438e, 0x49b40821,
   0xf61e2562, 0xc040b340, 0x265e5a51, 0xe9b6c7aa,
   0xd62f105d, 0x02441453, 0xd8a1e681, 0xe7d3fbc8,
   0x21e1cde6, 0xc33707d6, 0xf4d50d87, 0x455a14ed,
   0xa9e3e905, 0xfcefa3f8, 0x676f02d9, 0x8d2a4c8a,
   0xfffa3942, 0x8771f681, 0x6d9d6122, 0xfde5380c,
   0xa4beea44, 0x4bdecfa9, 0xf6bb4b60, 0xbebfbc70,
   0x289b7ec6, 0xeaa127fa, 0xd4ef3085, 0x04881d05,
   0xd9d4d039, 0xe6db99e5, 0x1fa27cf8, 0xc4ac5665,
   0xf4292244, 0x432aff97, 0xab9423a7, 0xfc93a039,
   0x655b59c3, 0x8f0ccc92, 0xffeff47d, 0x85845dd1,
   0x6fa87e4f, 0xfe2ce6e0, 0xa3014314, 0x4e0811a1,
   0xf7537e82, 0xbd3af235, 0x2ad7d2bb, 0xeb86d391]

/-- The 64 MD5 per-round rotation amounts. -/
def md5S : List Nat :=
  [7, 12, 17, 22, 7, 12, 17, 22, 7, 12, 17, 22, 7, 12, 17, 22,
   5, 9, 14, 20, 5, 9, 14, 20, 5, 9, 14, 20, 5, 9, 14, 20,
   4, 11, 16, 23, 4, 11, 16, 23, 4, 11, 16, 23, 4, 11, 16, 23,
   6, 10, 15, 21, 6, 10, 15, 21, 6, 10, 15, 21, 6, 10, 15, 21]

def md5Init : Nat × Nat × Nat × Nat :=
  (0x67452301, 0xefcdab89, 0x98badcfe, 0x10325476)

/-- Little-endian 32-bit word `g` of a 64-byte block. -/
def md5Word (block : List Nat) (g : Nat) : Nat :=
  block.getD (4 * g) 0 + 256 * block.getD (4 * g + 1) 0 +
    65536 * block.getD (4 * g + 2) 0 + 16777216 * block.getD (4 * g + 3) 0

/-- The MD5 nonlinear function of round `i`. -/
def md5F (b c d i : Nat) : Nat :=
  if i < 16 then (b &&& c) ||| ((mask32 ^^^ b) &&& d)
  else if i < 32 then (d &&& b) ||| ((mask32 ^^^ d) &&& c)
  else if i < 48 then b ^^^ c ^^^ d
  else c ^^^ (b ||| (mask32 ^^^ d))

/-- The message-word schedule of round `i`. -/
def md5G (i : Nat) : Nat :=
  if i < 16 then i
  else if i < 32 then (5 * i + 1) % 16
  else if i < 48 then (3 * i + 5) % 16
  else (7 * i) % 16

/-- One MD5 round. -/
def md5Round (block : List Nat) (st : Nat × Nat × Nat × Nat) (i : Nat) :
    Nat × Nat × Nat × Nat :=
  let (a, b, c, d) := st
  let f := (md5F b c d i + a + md5K.getD i 0 + md5Word block (md5G i)) % M32
  (d, (b + rotl32 f (md5S.getD i 0)) % M32, b, c)

/-- Process one 64-byte block. -/
def md5ProcessBlock (st : Nat × Nat × Nat × Nat) (block : List Nat) :
    Nat × Nat × Nat × Nat :=
  let (a, b, c, d) := (List.range 64).foldl (md5Round block) st
  ((st.1 + a) % M32, (st.2.1 + b) % M32, (st.2.2.1 + c) % M32, (st.2.2.2 + d) % M32)

/-- Little-endian byte expansions. -/
def le4 (n : Nat) : List Nat :=
  [n % 256, n / 256 % 256, n / 65536 % 256, n / 16777216 % 256]

def le8 (n : Nat) : List Nat :=
  [n % 256, n / 256 % 256, n / 65536 % 256, n / 16777216 % 256,
   n / 4294967296 % 256, n / 1099511627776 % 256,
   n / 281474976710656 % 256, n / 72057594037927936 % 256]

/-- MD5 padding: `0x80`, zeros to 56 mod 64, then the 64-bit bit length. -/
def md5Pad (msg : List Nat) : List Nat :=
  let len := msg.length
  let zeros := (56 + 64 - ((len + 1) % 64)) % 64
  msg ++ [128] ++ List.replicate zeros 0 ++ le8 ((len * 8) % 18446744073709551616)

/-- Split into 64-byte groups, recursing on the number of groups (structural,
so that the kernel can evaluate digests; one group is consumed per step). -/
def md5BlocksGo : Nat → List Nat → List (List Nat)
  | 0, _ => []
  | n + 1, l => l.take 64 :: md5BlocksGo n (l.drop 64)

/-- Split a padded message into its 64-byte blocks. -/
def md5Blocks (l : List Nat) : List (List Nat) :=
  md5BlocksGo ((l.length + 63) / 64) l

/-- The 16-byte MD5 digest of a byte message. -/
def md5Digest (msg : List Nat) : List Nat :=
  let st := (md5Blocks (md5Pad msg)).foldl md5ProcessBlock md5Init
  le4 st.1 ++ le4 st.2.1 ++ le4 st.2.2.1 ++ le4 st.2.2.2

/-- Lowercase hex digit. -/
def hexDigitChar (n : Nat) : Char :=
  if n < 10 then Char.ofNat (48 + n) else Char.ofNat (87 + n)

/-- Lowercase hex rendering of a byte list (two digits per byte). -/
def hexOfBytes : List Nat → List Char
  | [] => []
  | b :: bs => hexDigitChar (b / 16) :: hexDigitChar (b % 16) :: hexOfBytes bs

/-- `hashlib.md5(bytes).hexdigest()` as a character list. -/
def md5HexChars (msg : List Nat) : List Char := hexOfBytes (md5Digest msg)

/-! ## ChunkStore: `src/rag/data_models.py` and `src/rag/ingest.py` -/

/-- `DocumentChunk` (src/rag/data_models.py).  The dataclass fields, plus the
`score` attribute that `Retriever.search` assigns dynamically
(`chunk.score = float(score)`): `none` models "attribute absent". -/
structure DocumentChunk where
  content : String
  source : String
  page : Int
  chunk_id : String
  doc_id : String
  title : String
  url : String
  vigencia : String
  chunk_size : Int
  overlap : Int
  score : Option ℚ
  deriving DecidableEq, Repr, Inhabited

/-- The inline chunk-id computation of `DocumentChunk.__post_init__`
(src/rag/data_models.py lines 53-56): `"chunk-"` plus the first 16 hex digits
of the MD5 of the UTF-8 bytes of `doc_id + "|" + str(page) + "|" + content`.
The identical inline code appears again in `from_file_fragment`
(lines 121-124). -/
def chunkIdDataModels (doc_id : String) (page : Int) (content : String) : String :=
  "chunk-" ++
    String.mk ((md5HexChars (utf8Encode (doc_id ++ "|" ++ toString page ++ "|" ++ content))).take 16)

/-- `ingest._make_chunk_id` (src/rag/ingest.py lines 32-35). -/
def make_chunk_id (doc_id : String) (page : Int) (content : String) : String :=
  "chunk-" ++
    String.mk ((md5HexChars (utf8Encode (doc_id ++ "|" ++ toString page ++ "|" ++ content))).take 16)

/-- The title normalisation shared by `__post_init__` and
`from_file_fragment`: strip a (lower-cased) `.pdf` suffix, then
`.replace('_',' ').replace('-',' ').strip().capitalize()`. -/
def normalizeTitle (name : String) : String :=
  let name := if pyEndsWith (lowerStr name) ".pdf" then strDropRight name 4 else name
  pyCapitalize (pyStrip (pyReplace (pyReplace name "_" " ") "-" " "))

/-- `DocumentChunk.__post_init__` (src/rag/data_models.py lines 31-56):
normalise `source` to a stripped basename, default `doc_id`/`title`/
`chunk_size`/`chunk_id` when they are falsy. -/
def postInit (c : DocumentChunk) : DocumentChunk :=
  let source := if c.source ≠ "" then pyStrip (basename c.source) else c.source
  let doc_id := if c.doc_id = "" ∧ source ≠ "" then source else c.doc_id
  let title := if c.title = "" ∧ source ≠ "" then normalizeTitle source else c.title
  let chunk_size := if c.chunk_size = 0 then (c.content.length : Int) else c.chunk_size
  let chunk_id := if c.chunk_id = "" then chunkIdDataModels doc_id c.page c.content else c.chunk_id
  { c with source := source, doc_id := doc_id, title := title,
           chunk_size := chunk_size, chunk_id := chunk_id }

/-- `DocumentChunk(...)`: the dataclass constructor immediately followed by
`__post_init__` (the `score` attribute does not exist on a fresh instance). -/
def mkDocumentChunk (content source : String) (page : Int)
    (chunk_id doc_id title url vigencia : String) (chunk_size overlap : Int) :
    DocumentChunk :=
  postInit
    { content := content, source := source, page := page, chunk_id := chunk_id,
      doc_id := doc_id, title := title, url := url, vigencia := vigencia,
      chunk_size := chunk_size, overlap := overlap, score := none }

/-- A raw dict as accepted by `DocumentChunk.from_dict`; `none` models an
absent key. -/
structure RawDict where
  content : Option String
  text : Option String
  source : Option String
  page : Option Int
  chunk_id : Option String
  doc_id : Option String
  title : Option String
  url : Option String
  vigencia : Option String
  chunk_size : Option Int
  overlap : Option Int
  deriving Repr

/-- `DocumentChunk.from_dict` (src/rag/data_models.py lines 73-87). -/
def fromDict (d : RawDict) : DocumentChunk :=
  mkDocumentChunk (d.content.getD (d.text.getD "")) (d.source.getD "")
    (d.page.getD 0) (d.chunk_id.getD "") (d.doc_id.getD "") (d.title.getD "")
    (d.url.getD "") (d.vigencia.getD "") (d.chunk_size.getD 0) (d.overlap.getD 0)

/-- Python `a or b` on an optional string: `b` when `a` is `None` or empty. -/
def pyOrStr (a b : Option String) : Option String :=
  match a with
  | some s => if s = "" then b else some s
  | none => b

/-- `DocumentChunk.from_file_fragment` (src/rag/data_models.py lines 100-136):
derive `source` from the file name, default `doc_id` to it, compute the
stable chunk id when absent, then construct (running `__post_init__`). -/
def fromFileFragment (file_path : String) (page : Int) (content : String)
    (title : Option String) (url : String) (vigencia : String)
    (doc_id : Option String) (chunk_id : Option String) : DocumentChunk :=
  let source := pyStrip (basename file_path)
  let did := (pyOrStr doc_id (some source)).getD ""
  let cid :=
    match pyOrStr chunk_id none with
    | some c => c
    | none => chunkIdDataModels did page content
  let ttl0 := (pyOrStr title none).getD
    (if pyEndsWith (lowerStr source) ".pdf" then strDropRight source 4 else source)
  let ttl := pyCapitalize (pyStrip (pyReplace (pyReplace ttl0 "_" " ") "-" " "))
  mkDocumentChunk content source page cid did ttl url vigencia 0 0

/-! ## Retriever: `src/rag/retrieve.py` and its caller in `src/app.py`

The FAISS call `self.index.search(query_vec, k)` is an external collaborator
(spec §1); its output `zip(I[0], D[0])` is modelled as an oracle list of
`(index_position, similarity)` pairs.  Everything after that call — the
bounds filter, the in-place `chunk.score = float(score)` assignment, and the
result list — is embedded faithfully, with the mutation of `self.chunks`
made explicit as state passing. -/

/-- One iteration of the loop in `Retriever.search` (src/rag/retrieve.py
lines 64-69).  State: (the `self.chunks` list, the `results` accumulator).
`continue` on an out-of-range position; otherwise the *stored* chunk object
is mutated (`chunk.score = float(score)`) and appended to the results. -/
def searchStep (chunks : List DocumentChunk) (results : List DocumentChunk)
    (pr : Int × ℚ) : List DocumentChunk × List DocumentChunk :=
  if pr.1 < 0 ∨ (chunks.length : Int) ≤ pr.1 then (chunks, results)
  else
    let i := pr.1.toNat
    let chunk := { chunks.getD i default with score := some pr.2 }
    (chunks.set i chunk, results ++ [chunk])

/-- `Retriever.search` past the FAISS call: fold the loop body over the raw
`(position, score)` pairs.  Returns the final `self.chunks` list (the
mutated store) and the returned chunk list. -/
def searchImpl (chunks : List DocumentChunk) (raw : List (Int × ℚ)) :
    List DocumentChunk × List DocumentChunk :=
  raw.foldl (fun st pr => searchStep st.1 st.2 pr) (chunks, [])

/-- One row of the chunks parquet table, as read back by
`Retriever._load_index_and_chunks`; `none` models a missing column / NaN. -/
structure ParquetRow where
  content : Option String
  text : Option String
  doc_id : Option String
  doc : Option String
  page : Option Int
  chunk_id : Option String
  title : Option String
  url : Option String
  vigencia : Option String
  deriving Repr

/-- The per-row mapping of `_load_index_and_chunks` (src/rag/retrieve.py
lines 31-53): resolve the column fallbacks and construct a `DocumentChunk`
(running `__post_init__`). -/
def rowToChunk (row : ParquetRow) : DocumentChunk :=
  let content := row.content.getD (row.text.getD "")
  let doc_id := row.doc_id.getD (row.doc.getD "")
  let page := row.page.getD 0
  let chunk_id := row.chunk_id.getD ""
  let title := row.title.getD doc_id
  let url := row.url.getD ""
  let vigencia := row.vigencia.getD ""
  mkDocumentChunk content doc_id page chunk_id doc_id title url vigencia 0 0

/-- `Retriever._load_index_and_chunks` (src/rag/retrieve.py lines 21-27):
raise `FileNotFoundError` when either persisted artifact is absent,
otherwise materialise the chunk list from the parquet rows.  The filesystem
is the oracle `fsExists`; the parquet contents are the oracle `rows`. -/
def loadIndexAndChunks (fsExists : String → Bool) (indexPath chunksPath : String)
    (rows : List ParquetRow) : Except PyErr (List DocumentChunk) :=
  if ¬ fsExists indexPath ∨ ¬ fsExists chunksPath then
    .error (.fileNotFound "FAISS index o chunks no encontrados")
  else
    .ok (rows.map rowToChunk)

/-- The module-level convenience `retrieve` (src/rag/retrieve.py lines
73-80): construct a `Retriever` (which loads, possibly raising
`FileNotFoundError`) and run `search`.  `rawSearch` is the FAISS output
oracle for the query. -/
def retrieveTop (fsExists : String → Bool) (indexPath chunksPath : String)
    (rows : List ParquetRow) (rawSearch : List (Int × ℚ)) :
    Except PyErr (List DocumentChunk) :=
  (loadIndexAndChunks fsExists indexPath chunksPath rows).map
    (fun chunks => (searchImpl chunks rawSearch).2)

/-- The retrieval step of the interactive loop in `src/app.py` (lines
372-381): `retrieve(...)` guarded by `except FileNotFoundError`, which
degrades to an empty retrieved-chunk list; any other exception propagates. -/
def appRetrievalStep (fsExists : String → Bool) (indexPath chunksPath : String)
    (rows : List ParquetRow) (rawSearch : List (Int × ℚ)) :
    Except PyErr (List DocumentChunk) :=
  match retrieveTop fsExists indexPath chunksPath rows rawSearch with
  | .error (.fileNotFound _) => .ok []
  | .error e => .error e
  | .ok l => .ok l

/-! ## PromptAssembler: `src/rag/prompts.py`

`detect_query_type` is never exercised by the claims (both call sites invoke
`get_system_prompt()` with the default `"general"`), so only the membership
test of `get_system_prompt` is embedded, over the full specialized-prompt
table. -/

/-- `SYSTEM_PROMPT` (src/rag/prompts.py lines 1-28), verbatim. -/
def SYSTEM_PROMPT : String :=
  "Eres un asistente especializado en normativa y reglamentos de la Universidad de La Frontera (UFRO).\n\n" ++
  "INSTRUCCIONES ESPECÍFICAS:\n" ++
  "1. Responde ÚNICAMENTE basándote en la información exacta de los documentos oficiales proporcionados\n" ++
  "2. Si la información está en los documentos, cita TEXTUALMENTE las partes relevantes\n" ++
  "3. NO inventes, supongas o agregues información que no esté explícitamente en los documentos\n" ++
  "4. Si no encuentras la respuesta exacta, responde: \"No encontré esta información específica en la normativa disponible\"\n\n" ++
  "FORMATO DE RESPUESTA OBLIGATORIO:\n" ++
  "- Respuesta directa y concisa\n" ++
  "- Citar textualmente las partes relevantes entre comillas\n" ++
  "- Incluir SIEMPRE la sección \"Referencias\" al final\n\n" ++
  "FORMATO DE REFERENCIAS:\n" ++
  "Referencias:\n" ++
  "[Nombre-del-documento, p.XX]\n\n" ++
  "DOCUMENTOS DISPONIBLES incluyen:\n" ++
  "- Reglamento de Régimen de Estudios 2023\n" ++
  "- Reglamento de Admisión para carreras de Pregrado\n" ++
  "- Reglamento de Obligaciones Financieras\n" ++
  "- Reglamento de Convivencia\n" ++
  "- Calendario Académico 2025\n" ++
  "- Manual del Estudiante\n" ++
  "- Reglamento de Actividad de Titulación\n" ++
  "- Y otros documentos oficiales UFRO\n\n" ++
  "Prioriza siempre la exactitud sobre la completitud. Es mejor dar una respuesta parcial pero correcta que una respuesta completa pero inexacta."

/-- `SPECIALIZED_PROMPTS` (src/rag/prompts.py lines 31-59), as an
association list in insertion order. -/
def SPECIALIZED_PROMPTS : List (String × String) :=
  [("matricula",
    "Especialízate en consultas sobre matrícula y admisión. Busca información específica sobre:\n- Proceso de matrícula\n- Fechas importantes\n- Requisitos\n- Documentación necesaria\n- Plazos y procedimientos"),
   ("notas",
    "Especialízate en consultas sobre notas y evaluaciones. Busca información específica sobre:\n- Sistema de calificaciones\n- Requisitos de aprobación\n- Promedios\n- Exámenes\n- Recuperación de asignaturas"),
   ("financiero",
    "Especialízate en consultas sobre aspectos financieros. Busca información específica sobre:\n- Aranceles\n- Becas y beneficios\n- Formas de pago\n- Obligaciones financieras\n- Descuentos y facilidades"),
   ("titulo",
    "Especialízate en consultas sobre titulación. Busca información específica sobre:\n- Proceso de titulación\n- Requisitos para obtener el título\n- Actividades de titulación\n- Plazos y procedimientos\n- Documentación necesaria")]

/-- `get_system_prompt` (src/rag/prompts.py lines 79-83); both call sites in
the repository pass the default `query_type="general"`. -/
def getSystemPrompt (queryType : String) : String :=
  match SPECIALIZED_PROMPTS.lookup queryType with
  | some p => SYSTEM_PROMPT ++ "\n\nENFOQUE ESPECIALIZADO:\n" ++ p
  | none => SYSTEM_PROMPT

/-- A context document handed to `build_user_prompt`.  Both in-repo callers
(`src/app.py` and `src/eval/quality_evaluator.py`) build exactly this dict
shape — the keys `content`, `source`, `page`, `score` are always present, so
the inner `d.get(...)` fallback chains of `build_user_prompt` resolve to
these fields.  `page`/`score` carry `getattr(chunk, ..., None)`, hence the
`Option` (`none` = Python `None`). -/
structure CtxDoc where
  content : String
  source : String
  page : Option Int
  score : Option ℚ
  deriving DecidableEq, Repr

/-- The document-name cleanup of `build_user_prompt` (line 104):
`source.replace('.pdf', '').replace('data/raw/', '').replace('/', '')`. -/
def cleanDocName (source : String) : String :=
  pyReplace (pyReplace (pyReplace source ".pdf" "") "data/raw/" "") "/" ""

/-- Python `str(x)` for the `page` slot: an `int` renders as its decimal
form, `None` renders as `"None"`. -/
def pageFieldStr (p : Option Int) : String :=
  match p with
  | some n => toString n
  | none => "None"

/-- The text of one `FRAGMENTO` block (lines 106-112) for a document whose
score formatted successfully. -/
def fragmentString (i : Nat) (d : CtxDoc) (s : ℚ) : String :=
  "FRAGMENTO " ++ toString i ++ ":\nFuente: " ++ cleanDocName d.source ++
    "\nPágina: " ++ pageFieldStr d.page ++ "\nRelevancia: " ++ fmtFixed3 s ++
    "\nContenido exacto:\n\"" ++ d.content ++ "\"\n"

/-- One `FRAGMENTO` block (lines 106-112).  Formatting a `None` score with
`:.3f` raises `TypeError` in Python, hence the error case (unreachable from
the repository's call sites, where every retrieved chunk carries a score). -/
def renderFragment (i : Nat) (d : CtxDoc) : Except PyErr String :=
  match d.score with
  | none => .error (.typeError "unsupported format string passed to NoneType.__format__")
  | some s => .ok (fragmentString i d s)

/-- `[render(i, d) for i, d in enumerate(docs, 1)]`. -/
def renderFragments (i : Nat) : List CtxDoc → Except PyErr (List String)
  | [] => .ok []
  | d :: ds => do
      let s ← renderFragment i d
      let rest ← renderFragments (i + 1) ds
      .ok (s :: rest)

/-- The fixed prompt returned for an empty document list (lines 88-93). -/
def emptyDocsPrompt (query : String) : String :=
  "Pregunta: " ++ query ++
  "\n\nNo se encontraron documentos relevantes en la base de datos de normativa UFRO.\n\n" ++
  "Respuesta: No encontré esta información específica en la normativa disponible."

/-- The instruction tail of the non-empty prompt (lines 120-127; note the
two trailing spaces after `arriba` present in the source). -/
def promptInstructions : String :=
  "\n\nINSTRUCCIONES:\n- Analiza CUIDADOSAMENTE cada fragmento\n" ++
  "- Responde basándote SOLO en el contenido exacto mostrado arriba  \n" ++
  "- Si la respuesta está en los fragmentos, cita las partes relevantes textualmente\n" ++
  "- Si necesitas más información que no está disponible, indícalo claramente\n" ++
  "- SIEMPRE incluye las referencias al final\n\nRESPUESTA:"

/-- `build_user_prompt` (src/rag/prompts.py lines 85-127).  Note the
operator precedence in line 114: the 50-character `=` bar is prepended
*once*, it is not the join separator (the parts are joined by `"\n"`). -/
def fullNonEmptyPrompt (query : String) (parts : List String) : String :=
  "CONSULTA DEL USUARIO: " ++ query ++
    "\n\nDOCUMENTOS OFICIALES UFRO ENCONTRADOS:" ++
    ("\n" ++ String.mk (List.replicate 50 '=') ++ pyJoin "\n" parts) ++ promptInstructions

def buildUserPrompt (query : String) (docs : List CtxDoc) : Except PyErr String :=
  if docs = [] then .ok (emptyDocsPrompt query)
  else do
    let parts ← renderFragments 1 docs
    .ok (fullNonEmptyPrompt query parts)

/-! ## ProviderPort: `src/providers/` -/

/-- One chat message (`{"role": ..., "content": ...}`). -/
structure Message where
  role : String
  content : String
  deriving DecidableEq, Repr

/-- Python `repr` of a `str` value, for the printable strings that flow
through this code: quote selection (single quotes unless the string contains
`'` and no `"`) and the escapes for backslash, newline, carriage return, tab
and the chosen quote. -/
def pyReprStr (s : String) : String :=
  let sq : Char := Char.ofNat 39
  let dq : Char := Char.ofNat 34
  let q : Char := if s.data.contains sq ∧ ¬ s.data.contains dq then dq else sq
  let esc : Char → String := fun c =>
    if c = Char.ofNat 92 then "\\\\"
    else if c = '\n' then "\\n"
    else if c = Char.ofNat 13 then "\\r"
    else if c = '\t' then "\\t"
    else if c = q then "\\" ++ String.mk [q]
    else String.mk [c]
  String.mk [q] ++ String.join (s.data.map esc) ++ String.mk [q]

/-- Python `str(messages)` on the message list: the `repr` of a list of
dicts with keys `role` and `content` in insertion order. -/
def strOfMessages (msgs : List Message) : String :=
  "[" ++
    pyJoin ", " (msgs.map fun m =>
      "\x7b'role': " ++ pyReprStr m.role ++ ", 'content': " ++ pyReprStr m.content ++ "\x7d") ++
  "]"

/-- `_approx_tokens` / `BaseProvider._count_tokens_approximate`:
`max(1, len(text) // 4)`. -/
def approxTokens (text : String) : Nat := max 1 (text.length / 4)

/-- `ChatGPTProvider.PRICING` (src/providers/chatgpt.py lines 11-15), USD
per 1K tokens, as exact rationals. -/
def CHATGPT_PRICING : List (String × ℚ × ℚ) :=
  [("gpt-4", 3/100, 6/100),
   ("gpt-4-turbo", 1/100, 3/100),
   ("gpt-3.5-turbo", 1/1000, 2/1000)]

/-- The default `model` argument of `ChatGPTProvider.__init__`. -/
def defaultChatGPTModel : String := "openai/gpt-4.1-mini"

/-- The state of a constructed `ChatGPTProvider`: `clientConfigured` records
whether `self.client` was set (an `OpenAI` client exists iff the resolved
api key is non-empty). -/
structure ChatGPTProvider where
  api_key : String
  model : String
  clientConfigured : Bool
  deriving DecidableEq, Repr

/-- `ChatGPTProvider.__init__` (src/providers/chatgpt.py lines 17-29): the
key is the argument, else `OPENROUTER_API_KEY`, else `OPENAI_API_KEY`, else
`""`; no raising path exists. -/
def chatGPTInit (env : String → Option String) (api_key : Option String)
    (model : String) : ChatGPTProvider :=
  let key := pyOrStr (pyOrStr api_key (env "OPENROUTER_API_KEY")) (env "OPENAI_API_KEY")
  let apiKey := key.getD ""
  { api_key := apiKey, model := model, clientConfigured := apiKey ≠ "" }

/-- `ChatGPTProvider.estimate_cost` (src/providers/chatgpt.py lines 87-94):
the pricing-table formula when `self.model` is a key, else `0.0`. -/
def chatGPTEstimateCost (p : ChatGPTProvider) (input_tokens output_tokens : Nat) : ℚ :=
  match CHATGPT_PRICING.lookup p.model with
  | some prices =>
      (input_tokens : ℚ) / 1000 * prices.1 + (output_tokens : ℚ) / 1000 * prices.2
  | none => 0

/-- The token usage block of an OpenAI chat completion response. -/
structure ApiUsage where
  prompt_tokens : Nat
  completion_tokens : Nat
  total_tokens : Nat
  deriving Repr

/-- An OpenAI chat completion response (the fields the code reads). -/
structure ApiResponse where
  content : String
  usage : Option ApiUsage
  deriving Repr

/-- The dictionary returned by `ChatGPTProvider.chat_detailed`: either the
full metadata dict, or the `{"error", "latency", "cost"}` dict produced by
the `except` clause. -/
inductive ChatDetailed where
  | ok (response : String) (input_tokens output_tokens total_tokens : Nat)
      (latency cost : ℚ) (model : String)
  | err (error : String) (latency cost : ℚ)
  deriving DecidableEq, Repr

/-- `ChatGPTProvider.chat_detailed` (src/providers/chatgpt.py lines 35-85).
With no client configured, the degraded branch returns the static disabled
answer with `cost = 0.0`; otherwise the outcome of the network call
(`callApi` oracle) is translated.  Wall-clock latency is the `latency`
oracle. -/
def chatGPTChatDetailed (p : ChatGPTProvider)
    (callApi : List Message → Except String ApiResponse) (latency : ℚ)
    (messages : List Message) : ChatDetailed :=
  if ¬ p.clientConfigured then
    let dummy := "[ChatGPT deshabilitado: falta API key]"
    let tokens_in := max 1 ((strOfMessages messages).length / 4)
    let tokens_out := dummy.length / 4
    .ok dummy tokens_in tokens_out (tokens_in + tokens_out) latency 0 p.model
  else
    match callApi messages with
    | .ok resp =>
        let input_tokens := match resp.usage with | some u => u.prompt_tokens | none => 0
        let output_tokens := match resp.usage with | some u => u.completion_tokens | none => 0
        let total_tokens := match resp.usage with | some u => u.total_tokens | none => 0
        .ok resp.content input_tokens output_tokens total_tokens latency
          (chatGPTEstimateCost p input_tokens output_tokens) p.model
    | .error e => .err e latency 0

/-- `ChatGPTProvider.chat` (src/providers/chatgpt.py lines 97-101): raise
`RuntimeError` on an error dict, else return the response text. -/
def chatGPTChat (p : ChatGPTProvider)
    (callApi : List Message → Except String ApiResponse) (latency : ℚ)
    (messages : List Message) : Except PyErr String :=
  match chatGPTChatDetailed p callApi latency messages with
  | .err e _ _ => .error (.runtimeError e)
  | .ok r _ _ _ _ _ _ => .ok r

/-- `DeepSeekProvider.SUPPORTED_MODELS` prices (src/providers/deepseek.py
lines 14-25), USD per 1K tokens. -/
def DEEPSEEK_MODELS : List (String × String × ℚ × ℚ) :=
  [("deepseek-chat", "DeepSeek Chat", 14/100000, 28/100000),
   ("deepseek-reasoner", "DeepSeek Reasoner", 55/100000, 22/10000)]

/-- A constructed `DeepSeekProvider`. -/
structure DeepSeekProvider where
  model : String
  api_key : String
  endpoint : String
  default_temperature : ℚ
  default_max_tokens : Int
  request_timeout : Int
  deriving Repr

/-- `DeepSeekProvider.__init__` (src/providers/deepseek.py lines 27-43):
resolve the model and endpoint from the environment, parse the numeric
configuration defaults (a malformed value raises `ValueError` from
`float()`/`int()` before the credential check), then **raise `ValueError`
when `DEEPSEEK_API_KEY` is not configured**.  The "model not in list"
branch only prints a warning. -/
def deepSeekInit (env : String → Option String) (model : Option String) :
    Except PyErr DeepSeekProvider := do
  let m := (pyOrStr model (some ((env "DEEPSEEK_MODEL").getD "deepseek-chat"))).getD ""
  let api_key := env "DEEPSEEK_API_KEY"
  let endpoint := (env "DEEPSEEK_BASE_URL").getD "https://api.deepseek.com/v1/chat/completions"
  let temperature ←
    match parsePyFloat ((env "DEFAULT_TEMPERATURE").getD "0.7") with
    | some q => Except.ok q
    | none => Except.error (.valueError "could not convert string to float")
  let max_tokens ←
    match parsePyInt ((env "DEFAULT_MAX_TOKENS").getD "2000") with
    | some n => Except.ok n
    | none => Except.error (.valueError "invalid literal for int() with base 10")
  let timeout_s ←
    match parsePyInt ((env "REQUEST_TIMEOUT").getD "60") with
    | some n => Except.ok n
    | none => Except.error (.valueError "invalid literal for int() with base 10")
  if (api_key.getD "") = "" then
    Except.error (.valueError "DEEPSEEK_API_KEY no está configurado en el archivo .env")
  else
    Except.ok { model := m, api_key := api_key.getD "", endpoint := endpoint,
                default_temperature := temperature, default_max_tokens := max_tokens,
                request_timeout := timeout_s }

/-- `MockProvider.estimate_cost` (src/providers/mock.py lines 89-91): the
constant simulated cost `0.0001`. -/
def mockEstimateCost (_input_tokens _output_tokens : Nat) : ℚ := 1/10000

/-! ## Evaluator: `src/eval/quality_evaluator.py`

The provider passed to `evaluate_provider` is consumed only through
`chat(messages)` (which may raise) and `estimate_cost(tin, tout)` (which may
raise); both are modelled as `Except`-valued functions.  `retrieve(q, k)` is
the retrieval oracle `retr` (the claims about the evaluator presuppose a
loaded index; a missing index would raise out of `retrieve` uncaught).
`time.time()` differences are the per-item latency oracle `lats`. -/

/-- The `EvalResult` dataclass (src/eval/quality_evaluator.py lines 40-48). -/
structure EvalResult where
  question : String
  provider : String
  answer : String
  references : String
  latency_sec : ℚ
  est_cost_usd : ℚ
  exact_match : Bool
  deriving DecidableEq, Repr

/-- One gold-set item: `item.get('question', '')` / `item.get('answer', '')`
(an absent key is the empty string). -/
structure GoldItem where
  question : String
  answer : String
  deriving DecidableEq, Repr

/-- The provider surface the evaluator consumes. -/
structure EvalProvider where
  chat : List Message → Except String String
  estimateCost : Nat → Nat → Except String ℚ

/-- The guarded cost estimate of lines 115-118: `provider.estimate_cost`
with any raised exception caught as `0.0`. -/
def guardedCost (p : EvalProvider) (tokens_in tokens_out : Nat) : ℚ :=
  match p.estimateCost tokens_in tokens_out with
  | .ok c => c
  | .error _ => 0

/-- `_extract_references` (lines 16, 23-27): the first case-insensitive
occurrence of `"Referencias:"`; everything after it, stripped (the regex is
`Referencias:\s*(.*)` with DOTALL, whose group, after the final `.strip()`,
is exactly the stripped remainder).  `""` when absent. -/
def extractReferences (text : String) : String :=
  match findSub (lowerStr "Referencias:").data (lowerStr text).data with
  | none => ""
  | some i => pyStrip (strDrop text (i + 12))

/-- The lenient exact-match test of lines 120-124: the stripped, lowered
gold answer, when non-empty, must occur inside the stripped, lowered
answer. -/
def exactMatchFlag (goldAnswer answer : String) : Bool :=
  let gold_answer := lowerStr (pyStrip goldAnswer)
  decide (gold_answer ≠ "" ∧ containsSubstr (lowerStr (pyStrip answer)) gold_answer = true)

/-- `_format_references_from_docs` (lines 30-37): up to `max_refs` lines
`[name, p.page]`.  `d.get('source') or ... or 'Documento'` falls through on
an empty source; `d.get('page') or ... or 'N/A'` makes a page of `0` (or
`None`) render as `N/A`. -/
def formatReferencesFromDocs (docs : List CtxDoc) (max_refs : Nat) : String :=
  pyJoin "\n" ((docs.take max_refs).map fun d =>
    let src := if d.source ≠ "" then d.source else "Documento"
    let name := pyStrip (pyReplace (pyReplace src ".pdf" "") "data/raw/" "")
    let page :=
      match d.page with
      | some p => if p = 0 then "N/A" else toString p
      | none => "N/A"
    "[" ++ name ++ ", p." ++ page ++ "]")

/-- The answer an item ends up with when the provider call raised `e` and
the error text contains no `Referencias:` block: the error-marked string
with the synthesized references appended. -/
def errorMarkedAnswer (e : String) (docs : List CtxDoc) : String :=
  pyRstrip ("[Error proveedor] " ++ e) ++ "\n\nReferencias:\n" ++
    formatReferencesFromDocs docs 3

/-- The ctx-doc dict built from a retrieved chunk (lines 83-88):
`getattr(c, 'content', '')`, `getattr(c, 'source', '')`,
`getattr(c, 'page', None)`, `getattr(c, 'score', None)`. -/
def chunkToCtx (c : DocumentChunk) : CtxDoc :=
  { content := c.content, source := c.source, page := some c.page, score := c.score }

/-- The context documents the evaluator builds for a question. -/
def ctxDocsFor (retr : String → List DocumentChunk) (q : String) : List CtxDoc :=
  (retr q).map chunkToCtx

/-- The message list sent to the provider for a question (lines 90-96). -/
def itemMessages (retr : String → List DocumentChunk) (q : String) :
    Except PyErr (List Message) := do
  let userPrompt ← buildUserPrompt q (ctxDocsFor retr q)
  .ok [{ role := "system", content := getSystemPrompt "general" },
       { role := "user", content := userPrompt }]

/-- The pure tail of the per-item loop of `evaluate_provider` (lines
98-134), given the retrieved context documents and the assembled messages:
the guarded provider call (a raised exception becomes the literal
`[Error proveedor] ...` answer), reference synthesis when the answer lacks
a `Referencias:` block, the guarded cost estimate, and the lenient
exact-match test. -/
def evaluateItemCore (p : EvalProvider) (pname : String) (lat : ℚ)
    (item : GoldItem) (docs : List CtxDoc) (messages : List Message) : EvalResult :=
  let answer0 :=
    match p.chat messages with
    | .ok a => a
    | .error e => "[Error proveedor] " ++ e
  let refs0 := extractReferences answer0
  let refs := if refs0 = "" then formatReferencesFromDocs docs 3 else refs0
  let answer :=
    if refs0 = "" then pyRstrip answer0 ++ "\n\nReferencias:\n" ++ refs else answer0
  let tokens_in := approxTokens (strOfMessages messages)
  let tokens_out := approxTokens answer
  let cost := guardedCost p tokens_in tokens_out
  { question := item.question, provider := pname, answer := answer, references := refs,
    latency_sec := lat, est_cost_usd := cost,
    exact_match := exactMatchFlag item.answer answer }

/-- The body of the per-item loop of `evaluate_provider` (lines 77-134):
retrieval, prompt assembly (the only step of the model that can raise),
then the pure tail above. -/
def evaluateItem (retr : String → List DocumentChunk) (p : EvalProvider)
    (pname : String) (lat : ℚ) (item : GoldItem) : Except PyErr EvalResult := do
  let messages ← itemMessages retr item.question
  .ok (evaluateItemCore p pname lat item (ctxDocsFor retr item.question) messages)

/-- `evaluate_provider`'s loop over the gold set (lines 73-136), the
iteration counter feeding the latency oracle.  An exception from an item
(only the prompt-assembly `TypeError` is possible in the model) aborts the
whole batch, exactly as an uncaught exception would in the Python loop. -/
def evaluateProviderGo (retr : String → List DocumentChunk) (p : EvalProvider)
    (pname : String) (lats : Nat → ℚ) : Nat → List GoldItem → Except PyErr (List EvalResult)
  | _, [] => .ok []
  | i, item :: rest => do
      let r ← evaluateItem retr p pname (lats i) item
      let rs ← evaluateProviderGo retr p pname lats (i + 1) rest
      .ok (r :: rs)

/-- `QualityEvaluator.evaluate_provider` on an already-loaded gold set. -/
def evaluateProvider (retr : String → List DocumentChunk) (p : EvalProvider)
    (pname : String) (lats : Nat → ℚ) (gold : List GoldItem) :
    Except PyErr (List EvalResult) :=
  evaluateProviderGo retr p pname lats 0 gold

/-- The aggregate-metrics dictionary (lines 146-152). -/
structure AggMetrics where
  n : Nat
  exact_match : ℚ
  citation_coverage : ℚ
  avg_latency_sec : ℚ
  avg_cost_usd : ℚ
  deriving DecidableEq, Repr

/-- `QualityEvaluator.calculate_aggregate_metrics` (lines 138-152): the
empty dict (`none`) on an empty result list, otherwise the four rounded
rates/means over `n` items. -/
def calculateAggregateMetrics (results : List EvalResult) : Option AggMetrics :=
  if results = [] then none
  else
    let n : ℚ := results.length
    some { n := results.length,
           exact_match := pyRound 3 ((results.countP (·.exact_match) : ℚ) / n),
           citation_coverage := pyRound 3 ((results.countP (fun r => r.references ≠ "") : ℚ) / n),
           avg_latency_sec := pyRound 3 ((results.map (·.latency_sec)).sum / n),
           avg_cost_usd := pyRound 6 ((results.map (·.est_cost_usd)).sum / n) }

/-! ## Predicates used by the claim statements -/

/-- `s` contains no POSIX path separator (the normalisation target of the
"`doc_id` must never be a filesystem path" invariant). -/
def noSlash (s : String) : Prop := '/' ∉ s.data

instance (s : String) : Decidable (noSlash s) := by
  unfold noSlash; infer_instance

/-- A credential environment variable that is not configured: absent, or
present but empty (both are falsy to the Python `or` chains). -/
def noCredential (v : Option String) : Prop := v = none ∨ v = some ""

/-- A concrete chunk at rest (no score attribute). -/
def c2Chunk : DocumentChunk :=
  { content := "la matrícula es el acto académico", source := "reg.pdf", page := 15,
    chunk_id := "chunk-aaaaaaaaaaaaaaaa", doc_id := "reg.pdf", title := "Reg",
    url := "", vigencia := "", chunk_size := 33, overlap := 0, score := none }

/-- A concrete retrieved context document. -/
def c7Doc : CtxDoc :=
  { content := "la matrícula es el acto académico", source := "data/raw/reg.pdf",
    page := some 15, score := some (2 : ℚ) }

/-- A one-question gold set. -/
def c4Gold : List GoldItem := [{ question := "¿qué es la matrícula?", answer := "" }]

/-- A provider whose chat raises a simulated transport failure and whose
cost estimate is `MockProvider.estimate_cost` (the constant `0.0001`). -/
def c4Provider : EvalProvider :=
  { chat := fun _ => .error "fallo simulado de transporte",
    estimateCost := fun tin tout => .ok (mockEstimateCost tin tout) }

/-- A retrieval oracle returning one scored chunk for every query. -/
def c4Retr : String → List DocumentChunk :=
  fun _ => [{ c2Chunk with score := some (2 : ℚ) }]

/-! # Theorems

Helper lemmas first, then, per claim, one main theorem (named `c<n>_...`)
with its witness / counterexample. -/

/-- RFC 1321 test vector: sanity check that the MD5 embedding is the real
MD5 (empty message). -/
theorem md5_vector_empty :
    String.mk (md5HexChars (utf8Encode "")) = "d41d8cd98f00b204e9800998ecf8427e" := by
  decide

/-- RFC 1321 test vector: sanity check on `"abc"`. -/
theorem md5_vector_abc :
    String.mk (md5HexChars (utf8Encode "abc")) = "900150983cd24fb0d6963f7d28e17f72" := by
  decide

/-- RFC 1321 test vector: `"abcdefghijklmnopqrstuvwxyz"`. -/
theorem md5_vector_alphabet :
    String.mk (md5HexChars (utf8Encode "abcdefghijklmnopqrstuvwxyz")) =
      "c3fcd3d76192e4007dfb496cca67e13b" := by
  decide

/-- `String.append` concatenates the character lists. -/
theorem strDataAppend (a b : String) : (a ++ b).data = a.data ++ b.data := rfl

/-- Members of `dropWhile` are members of the original list. -/
theorem memOfMemDropWhile {α : Type} (p : α → Bool) :
    ∀ (l : List α) (a : α), a ∈ l.dropWhile p → a ∈ l := by
  intro l
  induction l with
  | nil => intro a h; simp at h
  | cons x t ih =>
      intro a h
      by_cases hx : p x
      · rw [List.dropWhile_cons_of_pos hx] at h
        exact List.mem_cons_of_mem x (ih a h)
      · rwa [List.dropWhile_cons_of_neg hx] at h

/-- Characters of `pyStrip s` are characters of `s`. -/
theorem pyStrip_mem {c : Char} {s : String} (h : c ∈ (pyStrip s).data) : c ∈ s.data := by
  unfold pyStrip at h
  simp only [List.mem_reverse] at h
  have h1 := memOfMemDropWhile pyIsSpace _ _ h
  rw [List.mem_reverse] at h1
  exact memOfMemDropWhile pyIsSpace _ _ h1

/-- `os.path.basename` never returns a string containing `/`. -/
theorem basename_noSlash (s : String) : noSlash (basename s) := by
  unfold noSlash basename
  intro h
  simp only [List.mem_reverse] at h
  have := List.mem_takeWhile_imp h
  simp at this

/-- Stripping preserves slash-freeness. -/
theorem pyStrip_noSlash {s : String} (h : noSlash s) : noSlash (pyStrip s) :=
  fun hc => h (pyStrip_mem hc)

/-- The `source` and `doc_id` produced by `__post_init__`, spelled out. -/
theorem postInit_fields (c : DocumentChunk) :
    (postInit c).source = (if c.source ≠ "" then pyStrip (basename c.source) else c.source) ∧
    (postInit c).doc_id =
      (if c.doc_id = "" ∧ (postInit c).source ≠ "" then (postInit c).source else c.doc_id) :=
  ⟨rfl, rfl⟩

/-- `__post_init__` always leaves a slash-free `source`. -/
theorem postInit_source_noSlash (c : DocumentChunk) : noSlash (postInit c).source := by
  rw [(postInit_fields c).1]
  rcases eq_or_ne c.source "" with h | h
  · simp [h, noSlash]
  · rw [if_pos h]
    exact pyStrip_noSlash (basename_noSlash c.source)

/-- `__post_init__` preserves a slash-free `doc_id`. -/
theorem postInit_doc_id_noSlash (c : DocumentChunk) (h : noSlash c.doc_id) :
    noSlash (postInit c).doc_id := by
  rw [(postInit_fields c).2]
  by_cases hc : c.doc_id = "" ∧ (postInit c).source ≠ ""
  · rw [if_pos hc]; exact postInit_source_noSlash c
  · rw [if_neg hc]; exact h

/-- C9 (amended).  The normalisation step always strips `source` to a
slash-free basename, and `doc_id` is slash-free **whenever the raw record
does not supply one** (it then defaults to the normalised `source`); an
explicitly supplied `doc_id` is kept verbatim and may remain a path.  This
holds for direct construction (`__post_init__`), `from_dict`, and
`from_file_fragment`. -/
theorem c9_normalization_paths :
    (∀ c : DocumentChunk,
        noSlash (postInit c).source ∧ (c.doc_id = "" → noSlash (postInit c).doc_id)) ∧
    (∀ d : RawDict,
        noSlash (fromDict d).source ∧ (d.doc_id.getD "" = "" → noSlash (fromDict d).doc_id)) ∧
    ∀ (fp : String) (page : Int) (content : String) (title : Option String)
      (url vig : String) (did cid : Option String),
      noSlash (fromFileFragment fp page content title url vig did cid).source ∧
      ((did = none ∨ did = some "") →
        noSlash (fromFileFragment fp page content title url vig did cid).doc_id) := by
  refine ⟨fun c => ⟨postInit_source_noSlash c, fun h => ?_⟩, fun d => ⟨?_, fun h => ?_⟩,
          fun fp page content title url vig did cid => ⟨?_, fun h => ?_⟩⟩
  · exact postInit_doc_id_noSlash c (by simp [h, noSlash])
  · exact postInit_source_noSlash _
  · exact postInit_doc_id_noSlash _ (by simp [h, noSlash])
  · exact postInit_source_noSlash _
  · refine postInit_doc_id_noSlash _ ?_
    show noSlash ((pyOrStr did (some (pyStrip (basename fp)))).getD "")
    rcases h with h | h <;>
      simp only [h, pyOrStr, if_pos rfl, Option.getD_some] <;>
      exact pyStrip_noSlash (basename_noSlash fp)

/-- C9 counterexample: a raw record that supplies `doc_id` explicitly as a
filesystem path keeps that path verbatim through `from_dict`'s
normalisation — the claim's "never a filesystem path, for every raw record
shape" is false. -/
theorem c9_counterexample :
    ¬ noSlash (fromDict
      { content := some "texto", text := none, source := some "data/raw/reglamento.pdf",
        page := some 2, chunk_id := none, doc_id := some "data/raw/reglamento.pdf",
        title := none, url := none, vigencia := none,
        chunk_size := none, overlap := none }).doc_id := by
  decide

/-- C9 witness: a record that supplies no `doc_id` gets the slash-free
basename for both fields. -/
theorem c9_witness :
    noSlash (fromDict
      { content := some "texto", text := none, source := some "data/raw/reglamento.pdf",
        page := some 2, chunk_id := none, doc_id := none, title := none,
        url := none, vigencia := none, chunk_size := none, overlap := none }).source ∧
    noSlash (fromDict
      { content := some "texto", text := none, source := some "data/raw/reglamento.pdf",
        page := some 2, chunk_id := none, doc_id := none, title := none,
        url := none, vigencia := none, chunk_size := none, overlap := none }).doc_id :=
  ⟨(c9_normalization_paths.2.1 _).1, (c9_normalization_paths.2.1 _).2 rfl⟩

/-- `hexOfBytes` produces two characters per byte. -/
theorem hexOfBytes_length : ∀ l : List Nat, (hexOfBytes l).length = 2 * l.length := by
  intro l
  induction l with
  | nil => rfl
  | cons b bs ih => simp [hexOfBytes, ih]; omega

/-- An MD5 digest always has 16 bytes. -/
theorem md5Digest_length (msg : List Nat) : (md5Digest msg).length = 16 := by
  unfold md5Digest le4
  simp

/-- `String.length` is the character count. -/
theorem strLengthData (s : String) : s.length = s.data.length := rfl

/-- The width of a generated chunk id: `"chunk-"` plus 16 hex digits. -/
theorem make_chunk_id_length (d : String) (p : Int) (c : String) :
    (make_chunk_id d p c).length = 22 := by
  unfold make_chunk_id
  rw [strLengthData, strDataAppend, List.length_append]
  have h32 : (md5HexChars (utf8Encode (d ++ "|" ++ toString p ++ "|" ++ c))).length = 32 := by
    unfold md5HexChars
    rw [hexOfBytes_length, md5Digest_length]
  show 6 + (List.take 16 _).length = 22
  rw [List.length_take, h32]
  decide

/-- C1.  Chunk-id generation is a pure deterministic function of
`(doc_id, page, content)` — the hash of the UTF-8 bytes of
`doc_id + "|" + page + "|" + content` truncated to 16 hex digits — the two
generation sites (`DocumentChunk.__post_init__` and `ingest._make_chunk_id`)
compute identical values, and the result always has the fixed width
`len("chunk-") + 16 = 22` with the literal `chunk-` prefix. -/
theorem c1_chunk_id_deterministic :
    ∀ (doc_id : String) (page : Int) (content : String),
      chunkIdDataModels doc_id page content = make_chunk_id doc_id page content ∧
      (∀ (d : String) (p : Int) (c : String),
        d = doc_id → p = page → c = content →
        make_chunk_id d p c = make_chunk_id doc_id page content) ∧
      (make_chunk_id doc_id page content).length = 22 ∧
      (make_chunk_id doc_id page content).data.take 6 = "chunk-".data := by
  intro doc_id page content
  refine ⟨rfl, ?_, make_chunk_id_length doc_id page content, rfl⟩
  intro d p c hd hp hc
  rw [hd, hp, hc]

/-- C1 witness: the agreement, determinism, width and prefix facts at a
concrete input, where the embedded MD5 evaluates to the same digest Python's
`hashlib.md5` produces (`md5("doc.pdf|1|hola") = 5dc835b99d7b2180...`). -/
theorem c1_witness :
    chunkIdDataModels "doc.pdf" 1 "hola" = make_chunk_id "doc.pdf" 1 "hola" ∧
    make_chunk_id "doc.pdf" 1 "hola" = make_chunk_id "doc.pdf" 1 "hola" ∧
    (make_chunk_id "doc.pdf" 1 "hola").length = 22 ∧
    make_chunk_id "doc.pdf" 1 "hola" = "chunk-5dc835b99d7b2180" :=
  ⟨(c1_chunk_id_deterministic "doc.pdf" 1 "hola").1,
   (c1_chunk_id_deterministic "doc.pdf" 1 "hola").2.1 "doc.pdf" 1 "hola" rfl rfl rfl,
   (c1_chunk_id_deterministic "doc.pdf" 1 "hola").2.2.1,
   by decide⟩

/-- C10.  `ChatGPTProvider.estimate_cost` returns `0.0` whenever the
configured model is not a key of the pricing table, and the default model
`openai/gpt-4.1-mini` is not a key, so a default-constructed provider
reports zero cost for every token count. -/
theorem c10_default_model_cost_zero :
    (∀ (p : ChatGPTProvider) (tin tout : Nat),
        CHATGPT_PRICING.lookup p.model = none → chatGPTEstimateCost p tin tout = 0) ∧
    ∀ (env : String → Option String) (key : Option String) (tin tout : Nat),
      (chatGPTInit env key defaultChatGPTModel).model = "openai/gpt-4.1-mini" ∧
      CHATGPT_PRICING.lookup (chatGPTInit env key defaultChatGPTModel).model = none ∧
      chatGPTEstimateCost (chatGPTInit env key defaultChatGPTModel) tin tout = 0 := by
  constructor
  · intro p tin tout h
    unfold chatGPTEstimateCost
    rw [h]
  · intro env key tin tout
    exact ⟨rfl, rfl, rfl⟩

/-- C10 witness: zero estimated cost at concrete token counts for a
concrete provider state carrying the default model. -/
theorem c10_witness :
    chatGPTEstimateCost
      { api_key := "", model := "openai/gpt-4.1-mini", clientConfigured := false }
      1000 5000 = 0 :=
  c10_default_model_cost_zero.1
    { api_key := "", model := "openai/gpt-4.1-mini", clientConfigured := false }
    1000 5000 (by decide)

/-- C8.  `calculate_aggregate_metrics` maps the empty result list to the
empty dict (no division is attempted), and a non-empty list of `n` results
to the exact-match rate, the non-empty-references rate, the mean latency and
the mean cost, rounded to 3, 3, 3 and 6 decimal places respectively. -/
theorem c8_aggregate_metrics :
    calculateAggregateMetrics [] = none ∧
    ∀ rs : List EvalResult, rs ≠ [] →
      calculateAggregateMetrics rs = some
        { n := rs.length,
          exact_match := pyRound 3 (((rs.filter (·.exact_match)).length : ℚ) / rs.length),
          citation_coverage :=
            pyRound 3 (((rs.filter (fun r => r.references ≠ "")).length : ℚ) / rs.length),
          avg_latency_sec := pyRound 3 ((rs.map (·.latency_sec)).sum / rs.length),
          avg_cost_usd := pyRound 6 ((rs.map (·.est_cost_usd)).sum / rs.length) } := by
  constructor
  · rfl
  · intro rs h
    unfold calculateAggregateMetrics
    rw [if_neg h]
    simp [List.countP_eq_length_filter]

/-- Rounding an integer value is the identity. -/
theorem roundHalfEven_intCast (m : Int) : roundHalfEven (m : ℚ) = m := by
  unfold roundHalfEven
  rw [Int.floor_intCast]
  norm_num

/-- `round(x, k)` is the identity on integer values. -/
theorem pyRound_intCast (k : Nat) (m : Int) : pyRound k (m : ℚ) = m := by
  unfold pyRound
  have h : (m : ℚ) * (10 : ℚ) ^ k = ((m * 10 ^ k : Int) : ℚ) := by push_cast; ring
  rw [h, roundHalfEven_intCast]
  push_cast
  have hk : ((10 : ℚ) ^ k) ≠ 0 := by positivity
  field_simp

/-- C8 witness: the aggregate at a concrete one-item result list. -/
theorem c8_witness :
    calculateAggregateMetrics
      [{ question := "q1", provider := "mock", answer := "a1", references := "[X, p.3]",
         latency_sec := 2, est_cost_usd := 0, exact_match := true }] = some
      { n := 1, exact_match := 1, citation_coverage := 1,
        avg_latency_sec := 2, avg_cost_usd := 0 } := by
  rw [c8_aggregate_metrics.2 _ (by decide)]
  norm_num
  refine ⟨?_, ?_, ?_, ?_⟩
  · have := pyRound_intCast 3 1
    norm_num at this
    simpa using this
  · have := pyRound_intCast 3 1
    norm_num at this
    simpa using this
  · have := pyRound_intCast 3 2
    norm_num at this
    simpa using this
  · have := pyRound_intCast 6 0
    norm_num at this
    simpa using this

/-- One search-loop iteration never changes the store's length. -/
theorem searchStep_length (cs rs : List DocumentChunk) (pr : Int × ℚ) :
    ((searchStep cs rs pr).1).length = cs.length := by
  unfold searchStep
  split
  · rfl
  · simp

/-- The whole search fold never changes the store's length. -/
theorem searchFold_length (raw : List (Int × ℚ)) :
    ∀ (cs rs : List DocumentChunk),
      ((raw.foldl (fun st pr => searchStep st.1 st.2 pr) (cs, rs)).1).length = cs.length := by
  induction raw with
  | nil => intro cs rs; rfl
  | cons pr rest ih =>
      intro cs rs
      rw [List.foldl_cons]
      rcases hstep : searchStep cs rs pr with ⟨cs', rs'⟩
      have hlen : cs'.length = cs.length := by
        have := searchStep_length cs rs pr
        rw [hstep] at this
        exact this
      rw [ih cs' rs', hlen]

/-- Every chunk the search fold accumulates originates from an in-range
`(position, score)` pair and carries that score. -/
theorem searchFold_results (N : Nat) (raw0 : List (Int × ℚ)) :
    ∀ (raw : List (Int × ℚ)) (cs rs : List DocumentChunk),
      cs.length = N →
      (∀ pr ∈ raw, pr ∈ raw0) →
      (∀ c ∈ rs, ∃ pr ∈ raw0, 0 ≤ pr.1 ∧ pr.1 < (N : Int) ∧ c.score = some pr.2) →
      ∀ c ∈ (raw.foldl (fun st pr => searchStep st.1 st.2 pr) (cs, rs)).2,
        ∃ pr ∈ raw0, 0 ≤ pr.1 ∧ pr.1 < (N : Int) ∧ c.score = some pr.2 := by
  intro raw
  induction raw with
  | nil => intro cs rs _ _ hrs c hc; exact hrs c hc
  | cons pr rest ih =>
      intro cs rs hlen hsub hrs c hc
      rw [List.foldl_cons] at hc
      by_cases hcond : pr.1 < 0 ∨ (cs.length : Int) ≤ pr.1
      · have hstep : searchStep cs rs pr = (cs, rs) := by
          unfold searchStep
          rw [if_pos hcond]
        rw [hstep] at hc
        exact ih cs rs hlen (fun q hq => hsub q (List.mem_cons_of_mem pr hq)) hrs c hc
      · have hstep : searchStep cs rs pr =
            (cs.set pr.1.toNat { cs.getD pr.1.toNat default with score := some pr.2 },
             rs ++ [{ cs.getD pr.1.toNat default with score := some pr.2 }]) := by
          unfold searchStep
          rw [if_neg hcond]
        rw [hstep] at hc
        refine ih _ _ (by simp [hlen]) (fun q hq => hsub q (List.mem_cons_of_mem pr hq))
          ?_ c hc
        intro c' hc'
        rcases List.mem_append.mp hc' with h | h
        · exact hrs c' h
        · have hc'' : c' = { cs.getD pr.1.toNat default with score := some pr.2 } := by
            simpa using h
          push_neg at hcond
          exact ⟨pr, hsub pr (List.mem_cons_self pr rest),
                 hcond.1, by rw [← hlen]; exact hcond.2, by rw [hc'']⟩

/-- C5.  `Retriever.search` surfaces only chunks originating from raw index
positions inside `[0, N)` — any out-of-range position reported by the
vector structure (such as `-1`) is filtered — and searching a successfully
loaded but empty store yields the empty list rather than an error. -/
theorem c5_search_filters_positions :
    ∀ (chunks : List DocumentChunk) (raw : List (Int × ℚ)),
      (∀ c ∈ (searchImpl chunks raw).2,
        ∃ pr ∈ raw, 0 ≤ pr.1 ∧ pr.1 < (chunks.length : Int) ∧ c.score = some pr.2) ∧
      (chunks = [] → (searchImpl chunks raw).2 = []) := by
  intro chunks raw
  have hmain := searchFold_results chunks.length raw raw chunks [] rfl
    (fun _ h => h) (by simp)
  refine ⟨hmain, fun hnil => ?_⟩
  subst hnil
  rw [List.eq_nil_iff_forall_not_mem]
  intro c hc
  obtain ⟨pr, _, h0, hlt, _⟩ := hmain c hc
  simp only [List.length_nil, Nat.cast_zero] at hlt
  omega

/-- C5 witness: an empty store returns the empty list even when the raw
FAISS output reports positions (including the out-of-range `-1`); and on a
one-chunk store, out-of-range positions alone produce no results. -/
theorem c5_witness :
    (searchImpl [] [((-1 : Int), (2 : ℚ)), ((0 : Int), (3 : ℚ))]).2 = [] ∧
    (searchImpl [default] [((-1 : Int), (2 : ℚ)), ((1 : Int), (3 : ℚ))]).2 = [] :=
  ⟨(c5_search_filters_positions [] _).2 rfl, by decide⟩

/-- The score attribute at position `j`, once present, survives one search
iteration. -/
theorem searchStep_preserves_some (cs rs : List DocumentChunk) (pr : Int × ℚ) (j : Nat)
    (h : ∃ ch, cs.get? j = some ch ∧ ch.score.isSome) :
    ∃ ch, ((searchStep cs rs pr).1).get? j = some ch ∧ ch.score.isSome := by
  obtain ⟨ch, hch, hsome⟩ := h
  unfold searchStep
  split
  · exact ⟨ch, hch, hsome⟩
  · by_cases hij : pr.1.toNat = j
    · subst hij
      have hlt : pr.1.toNat < cs.length := List.get?_eq_some.mp hch |>.1
      exact ⟨_, List.get?_set_eq_of_lt _ hlt, rfl⟩
    · exact ⟨ch, by rw [List.get?_set_ne _ _ hij]; exact hch, hsome⟩

/-- The score attribute at position `j`, once present, survives the whole
fold. -/
theorem searchFold_preserves_some (raw : List (Int × ℚ)) :
    ∀ (cs rs : List DocumentChunk) (j : Nat),
      (∃ ch, cs.get? j = some ch ∧ ch.score.isSome) →
      ∃ ch, ((raw.foldl (fun st pr => searchStep st.1 st.2 pr) (cs, rs)).1).get? j = some ch ∧
        ch.score.isSome := by
  induction raw with
  | nil => intro cs rs j h; exact h
  | cons pr rest ih =>
      intro cs rs j h
      rw [List.foldl_cons]
      rcases hstep : searchStep cs rs pr with ⟨cs', rs'⟩
      have h' := searchStep_preserves_some cs rs pr j h
      rw [hstep] at h'
      exact ih cs' rs' j h'

/-- Processing a valid pair plants a score at its position. -/
theorem searchStep_sets_score (cs rs : List DocumentChunk) (pr : Int × ℚ)
    (hv : ¬ (pr.1 < 0 ∨ (cs.length : Int) ≤ pr.1)) :
    ∃ ch, ((searchStep cs rs pr).1).get? pr.1.toNat = some ch ∧ ch.score.isSome := by
  unfold searchStep
  rw [if_neg hv]
  push_neg at hv
  have hlt : pr.1.toNat < cs.length := by omega
  exact ⟨_, List.get?_set_eq_of_lt _ hlt, rfl⟩

/-- C2 (amended).  `Retriever.search` attaches each similarity score by
assigning it onto the chunk object *stored in* the internal chunk list
(`chunk = self.chunks[idx]; chunk.score = float(score)`): the store keeps
its length, but after the call the stored chunk at every valid raw position
carries a score attribute — scores are persisted into the base store, not
confined to copies. -/
theorem c2_search_mutates_store :
    ∀ (chunks : List DocumentChunk) (raw : List (Int × ℚ)),
      ((searchImpl chunks raw).1).length = chunks.length ∧
      ∀ pr ∈ raw, 0 ≤ pr.1 → pr.1 < (chunks.length : Int) →
        ∃ ch, ((searchImpl chunks raw).1).get? pr.1.toNat = some ch ∧ ch.score.isSome := by
  intro chunks raw
  refine ⟨searchFold_length raw chunks [], ?_⟩
  have main : ∀ (r : List (Int × ℚ)) (cs rs : List DocumentChunk) (pr : Int × ℚ),
      pr ∈ r → 0 ≤ pr.1 → pr.1 < (cs.length : Int) →
      ∃ ch, ((r.foldl (fun st q => searchStep st.1 st.2 q) (cs, rs)).1).get? pr.1.toNat =
        some ch ∧ ch.score.isSome := by
    intro r
    induction r with
    | nil => intro cs rs pr h; exact absurd h (List.not_mem_nil pr)
    | cons q rest ih =>
        intro cs rs pr hmem h0 hlt
        rw [List.foldl_cons]
        rcases hstep : searchStep cs rs q with ⟨cs', rs'⟩
        have hlen : cs'.length = cs.length := by
          have := searchStep_length cs rs q
          rw [hstep] at this
          exact this
        rcases List.mem_cons.mp hmem with heq | hmem'
        · subst heq
          have hv : ¬ (pr.1 < 0 ∨ (cs.length : Int) ≤ pr.1) := by
            push_neg
            exact ⟨h0, hlt⟩
          have hset := searchStep_sets_score cs rs pr hv
          rw [hstep] at hset
          exact searchFold_preserves_some rest cs' rs' pr.1.toNat hset
        · exact ih cs' rs' pr hmem' h0 (by rw [hlen]; exact hlt)
  exact main raw chunks []

/-- C2 counterexample: after one search over a one-chunk store, the chunk
stored in the internal list is *changed* — it now carries the score — so
"every chunk stored in the Retriever's internal chunk list is unchanged"
is false. -/
theorem c2_counterexample :
    (searchImpl [c2Chunk] [((0 : Int), (2 : ℚ))]).1 ≠ [c2Chunk] ∧
    ((searchImpl [c2Chunk] [((0 : Int), (2 : ℚ))]).1).get? 0 =
      some { c2Chunk with score := some (2 : ℚ) } ∧
    c2Chunk.score = none := by
  decide

/-- C2 witness: the amended persistence statement at the same concrete
input. -/
theorem c2_witness :
    ∃ ch, ((searchImpl [c2Chunk] [((0 : Int), (2 : ℚ))]).1).get? 0 = some ch ∧
      ch.score.isSome := by
  have h := (c2_search_mutates_store [c2Chunk] [((0 : Int), (2 : ℚ))]).2
    ((0 : Int), (2 : ℚ)) (by decide) (by decide) (by decide)
  simpa using h

/-- C6.  When either persisted artifact is missing, loading raises exactly
the `FileNotFoundError` variant (distinguishable by construction from every
other `PyErr`), and the interactive loop in `app.py`, which catches exactly
`FileNotFoundError`, degrades to an empty retrieved-chunk list instead of
propagating. -/
theorem c6_notfound_degrades :
    ∀ (fsExists : String → Bool) (ip cp : String) (rows : List ParquetRow)
      (raw : List (Int × ℚ)),
      (fsExists ip = false ∨ fsExists cp = false) →
      loadIndexAndChunks fsExists ip cp rows =
        .error (.fileNotFound "FAISS index o chunks no encontrados") ∧
      appRetrievalStep fsExists ip cp rows raw = .ok [] := by
  intro fs ip cp rows raw h
  have hcond : ¬ (fs ip = true) ∨ ¬ (fs cp = true) := by
    rcases h with h | h <;> simp [h]
  have hload : loadIndexAndChunks fs ip cp rows =
      .error (.fileNotFound "FAISS index o chunks no encontrados") := by
    unfold loadIndexAndChunks
    rw [if_pos hcond]
  refine ⟨hload, ?_⟩
  unfold appRetrievalStep retrieveTop
  rw [hload]
  rfl

/-- C6 witness: a filesystem with neither artifact present. -/
theorem c6_witness :
    loadIndexAndChunks (fun _ => false) "data/index.faiss"
        "data/processed/chunks_with_embeddings.parquet" [] =
      .error (.fileNotFound "FAISS index o chunks no encontrados") ∧
    appRetrievalStep (fun _ => false) "data/index.faiss"
        "data/processed/chunks_with_embeddings.parquet" [] [] = .ok [] :=
  c6_notfound_degrades (fun _ => false) "data/index.faiss"
    "data/processed/chunks_with_embeddings.parquet" [] [] (Or.inl rfl)

/-- With no credential in the argument or the environment, the ChatGPT
provider resolves an empty key and configures no client. -/
theorem chatGPTInit_no_client (env : String → Option String)
    (h1 : noCredential (env "OPENROUTER_API_KEY"))
    (h2 : noCredential (env "OPENAI_API_KEY")) :
    (chatGPTInit env none defaultChatGPTModel).clientConfigured = false := by
  rcases h1 with h1 | h1 <;> rcases h2 with h2 | h2 <;>
    simp [chatGPTInit, pyOrStr, h1, h2]

/-- C3 (amended).  `ChatGPTProvider` degrades as the claim says: with no
configured credential its construction cannot raise, every `chat_detailed`
call returns the marked disabled answer `[ChatGPT deshabilitado: falta API
key]` with `cost = 0.0`, and `chat` returns that text without raising.
`DeepSeekProvider`, however, **raises `ValueError` during construction**
when `DEEPSEEK_API_KEY` is unset — it never reaches a degraded-answer
state. -/
theorem c3_provider_credentials :
    ∀ env : String → Option String,
      noCredential (env "OPENROUTER_API_KEY") →
      noCredential (env "OPENAI_API_KEY") →
      ((∀ (callApi : List Message → Except String ApiResponse) (lat : ℚ)
          (msgs : List Message),
          (∃ tin tout ttl,
            chatGPTChatDetailed (chatGPTInit env none defaultChatGPTModel) callApi lat msgs =
              .ok "[ChatGPT deshabilitado: falta API key]" tin tout ttl lat 0
                defaultChatGPTModel) ∧
          chatGPTChat (chatGPTInit env none defaultChatGPTModel) callApi lat msgs =
            .ok "[ChatGPT deshabilitado: falta API key]") ∧
        (noCredential (env "DEEPSEEK_API_KEY") →
         env "DEFAULT_TEMPERATURE" = none →
         env "DEFAULT_MAX_TOKENS" = none →
         env "REQUEST_TIMEOUT" = none →
         deepSeekInit env none =
           .error (.valueError "DEEPSEEK_API_KEY no está configurado en el archivo .env"))) := by
  intro env h1 h2
  have hconf := chatGPTInit_no_client env h1 h2
  constructor
  · intro callApi lat msgs
    constructor
    · refine ⟨max 1 ((strOfMessages msgs).length / 4),
        "[ChatGPT deshabilitado: falta API key]".length / 4,
        max 1 ((strOfMessages msgs).length / 4) +
          "[ChatGPT deshabilitado: falta API key]".length / 4, ?_⟩
      unfold chatGPTChatDetailed
      rw [hconf]
      simp
      rfl
    · unfold chatGPTChat chatGPTChatDetailed
      rw [hconf]
      simp
  · intro hd ht hm hr
    unfold deepSeekInit
    rw [ht, hm, hr]
    rcases hd with hd | hd <;> rw [hd] <;> rfl

/-- C3 counterexample: constructing `DeepSeekProvider` in an environment
with no credentials raises `ValueError` — refuting "for every provider
backend, constructing it with no configured credential does not raise". -/
theorem c3_counterexample :
    deepSeekInit (fun _ => none) none =
      .error (.valueError "DEEPSEEK_API_KEY no está configurado en el archivo .env") := by
  rfl

/-- C3 witness: the amended behaviour in the all-unset environment, at a
concrete message list. -/
theorem c3_witness :
    (∃ tin tout ttl,
      chatGPTChatDetailed (chatGPTInit (fun _ => none) none defaultChatGPTModel)
          (fun _ => .error "net down") 0 [{ role := "user", content := "hola" }] =
        .ok "[ChatGPT deshabilitado: falta API key]" tin tout ttl 0 0 defaultChatGPTModel) ∧
    chatGPTChat (chatGPTInit (fun _ => none) none defaultChatGPTModel)
        (fun _ => .error "net down") 0 [{ role := "user", content := "hola" }] =
      .ok "[ChatGPT deshabilitado: falta API key]" ∧
    deepSeekInit (fun _ => none) none =
      .error (.valueError "DEEPSEEK_API_KEY no está configurado en el archivo .env") :=
  ⟨((c3_provider_credentials (fun _ => none) (Or.inl rfl) (Or.inl rfl)).1
      (fun _ => .error "net down") 0 [{ role := "user", content := "hola" }]).1,
   ((c3_provider_credentials (fun _ => none) (Or.inl rfl) (Or.inl rfl)).1
      (fun _ => .error "net down") 0 [{ role := "user", content := "hola" }]).2,
   (c3_provider_credentials (fun _ => none) (Or.inl rfl) (Or.inl rfl)).2
      (Or.inl rfl) rfl rfl rfl⟩

/-- An infix of `B` is an infix of `A ++ B`. -/
theorem infixAppendLeft {α : Type} (A : List α) {x B : List α} (h : x <:+: B) :
    x <:+: A ++ B := by
  obtain ⟨s, t, hst⟩ := h
  exact ⟨A ++ s, t, by rw [← hst]; simp⟩

/-- An infix of `L` is an infix of `L ++ R`. -/
theorem infixAppendRight {α : Type} (R : List α) {x L : List α} (h : x <:+: L) :
    x <:+: L ++ R := by
  obtain ⟨s, t, hst⟩ := h
  exact ⟨s, t ++ R, by rw [← hst]; simp⟩

/-- Every joined part is an infix of the join. -/
theorem pyJoin_infix (sep : String) :
    ∀ (parts : List String) (p : String), p ∈ parts →
      p.data <:+: (pyJoin sep parts).data := by
  intro parts
  induction parts with
  | nil => intro p hp; exact absurd hp (List.not_mem_nil p)
  | cons x t ih =>
      intro p hp
      cases t with
      | nil =>
          have hx : p = x := by simpa using hp
          subst hx
          exact ⟨[], [], by simp [pyJoin]⟩
      | cons y t' =>
          rcases List.mem_cons.mp hp with hx | hmem
          · subst hx
            show p.data <:+: (p ++ sep ++ pyJoin sep (y :: t')).data
            rw [strDataAppend, strDataAppend]
            exact ⟨[], sep.data ++ (pyJoin sep (y :: t')).data, by simp⟩
          · show p.data <:+: (x ++ sep ++ pyJoin sep (y :: t')).data
            rw [strDataAppend, strDataAppend]
            rw [List.append_assoc]
            exact infixAppendLeft _ (infixAppendLeft _ (ih p hmem))

/-- When every document carries a score, fragment rendering succeeds and
yields, position by position, the `FRAGMENTO` block of that document with
its 1-based index. -/
theorem renderFragments_spec :
    ∀ (docs : List CtxDoc) (i : Nat), (∀ d ∈ docs, d.score.isSome) →
      ∃ parts, renderFragments i docs = .ok parts ∧ parts.length = docs.length ∧
        ∀ j d, docs.get? j = some d →
          ∃ s, d.score = some s ∧ parts.get? j = some (fragmentString (i + j) d s) := by
  intro docs
  induction docs with
  | nil => intro i _; exact ⟨[], rfl, rfl, fun j d hj => by simp at hj⟩
  | cons d ds ih =>
      intro i hsc
      obtain ⟨s, hs⟩ := Option.isSome_iff_exists.mp (hsc d (List.mem_cons_self d ds))
      obtain ⟨parts', hok', hlen', hspec'⟩ := ih (i + 1) (fun x hx => hsc x (List.mem_cons_of_mem d hx))
      refine ⟨fragmentString i d s :: parts', ?_, by simp [hlen'], ?_⟩
      · unfold renderFragments renderFragment
        rw [hs, hok']
        rfl
      · intro j d' hj
        cases j with
        | zero =>
            have hd : d = d' := by simpa using hj
            subst hd
            exact ⟨s, hs, by simp⟩
        | succ j' =>
            have hj' : ds.get? j' = some d' := by simpa using hj
            obtain ⟨s', hs', hp'⟩ := hspec' j' d' hj'
            refine ⟨s', hs', ?_⟩
            have harith : i + 1 + j' = i + (j' + 1) := by omega
            rw [← harith]
            simpa using hp'

/-- The digit characters of `pad3Chars` really are decimal digits. -/
theorem pad3Chars_digits (n : Nat) : ∀ c ∈ pad3Chars n, c.isDigit = true := by
  have key : ∀ m : Nat, (decDigitChar m).isDigit = true := by
    intro m
    unfold decDigitChar
    have hm : m % 10 < 10 := Nat.mod_lt _ (by norm_num)
    interval_cases h : m % 10 <;> decide
  intro c hc
  unfold pad3Chars at hc
  rcases List.mem_cons.mp hc with h | hc
  · rw [h]; exact key _
  rcases List.mem_cons.mp hc with h | hc
  · rw [h]; exact key _
  rcases List.mem_cons.mp hc with h | hc
  · rw [h]; exact key _
  exact absurd hc (List.not_mem_nil c)

/-- Every `%.3f` rendering splits as `pre ++ "." ++ three digits`. -/
theorem fmtFixed3_shape (x : ℚ) :
    ∃ (pre : String) (frac : List Char),
      fmtFixed3 x = pre ++ "." ++ String.mk frac ∧ frac.length = 3 ∧
        ∀ c ∈ frac, c.isDigit = true := by
  refine ⟨(if x < 0 then "-" else "") ++
    String.mk (natDigits ((roundHalfEven (x * 1000)).natAbs / 1000)),
    pad3Chars ((roundHalfEven (x * 1000)).natAbs % 1000), ?_, rfl, pad3Chars_digits _⟩
  unfold fmtFixed3 pad3
  simp [String.ext_iff, strDataAppend]

/-- C7.  `build_user_prompt` is a pure function: on an empty document list
it returns exactly the fixed "not found" template around the query (which
contains the explicit cue and no fragment renderings); on a non-empty list
it returns the assembled context prompt in which, for every document, the
`FRAGMENTO` block with its 1-based index, cleaned source name, page,
3-decimal score and verbatim content occurs as a contiguous substring; and
every `%.3f` score rendering carries exactly three decimal digits after the
dot. -/
theorem c7_build_user_prompt :
    (∀ q : String,
      buildUserPrompt q [] = .ok (emptyDocsPrompt q) ∧
      StrContains (emptyDocsPrompt q)
        "No encontré esta información específica en la normativa disponible") ∧
    (∀ (q : String) (docs : List CtxDoc), docs ≠ [] → (∀ d ∈ docs, d.score.isSome) →
      ∃ parts : List String,
        renderFragments 1 docs = .ok parts ∧
        buildUserPrompt q docs = .ok (fullNonEmptyPrompt q parts) ∧
        ∀ j d, docs.get? j = some d →
          ∃ s, d.score = some s ∧
            StrContains (fullNonEmptyPrompt q parts) (fragmentString (j + 1) d s)) ∧
    ∀ x : ℚ, ∃ (pre : String) (frac : List Char),
      fmtFixed3 x = pre ++ "." ++ String.mk frac ∧ frac.length = 3 ∧
        ∀ c ∈ frac, c.isDigit = true := by
  refine ⟨fun q => ⟨rfl, ?_⟩, fun q docs hne hsc => ?_, fmtFixed3_shape⟩
  · have hc : ("No encontré esta información específica en la normativa disponible" :
        String).data <:+:
        ("Respuesta: No encontré esta información específica en la normativa disponible." :
        String).data := by decide
    unfold StrContains emptyDocsPrompt
    rw [strDataAppend]
    exact infixAppendLeft _ hc
  · obtain ⟨parts, hok, _, hspec⟩ := renderFragments_spec docs 1 hsc
    refine ⟨parts, hok, ?_, ?_⟩
    · unfold buildUserPrompt
      rw [if_neg hne, hok]
      rfl
    · intro j d hj
      obtain ⟨s, hs, hp⟩ := hspec j d hj
      rw [Nat.add_comm 1 j] at hp
      refine ⟨s, hs, ?_⟩
      have hmem : fragmentString (j + 1) d s ∈ parts := List.get?_mem hp
      have h1 := pyJoin_infix "\n" parts _ hmem
      unfold StrContains fullNonEmptyPrompt
      simp only [strDataAppend]
      exact infixAppendRight _ (infixAppendLeft _ (infixAppendLeft _ h1))

/-- C7 witness: the empty-list cue and, for a concrete one-document list,
the rendered block with index 1 at a concrete query. -/
theorem c7_witness :
    (buildUserPrompt "¿qué es la matrícula?" [] = .ok (emptyDocsPrompt "¿qué es la matrícula?") ∧
      StrContains (emptyDocsPrompt "¿qué es la matrícula?")
        "No encontré esta información específica en la normativa disponible") ∧
    ∃ parts : List String,
      renderFragments 1 [c7Doc] = .ok parts ∧
      buildUserPrompt "¿qué es la matrícula?" [c7Doc] =
        .ok (fullNonEmptyPrompt "¿qué es la matrícula?" parts) ∧
      ∀ j d, [c7Doc].get? j = some d →
        ∃ s, d.score = some s ∧
          StrContains (fullNonEmptyPrompt "¿qué es la matrícula?" parts)
            (fragmentString (j + 1) d s) :=
  ⟨c7_build_user_prompt.1 "¿qué es la matrícula?",
   c7_build_user_prompt.2.1 "¿qué es la matrícula?" [c7Doc] (by decide) (by decide)⟩

/-- Prompt assembly succeeds whenever every document carries a score. -/
theorem buildUserPrompt_ok (q : String) (docs : List CtxDoc)
    (h : ∀ d ∈ docs, d.score.isSome) : ∃ P, buildUserPrompt q docs = .ok P := by
  by_cases hd : docs = []
  · exact ⟨emptyDocsPrompt q, by rw [hd]; rfl⟩
  · obtain ⟨parts, hok, _, _⟩ := renderFragments_spec docs 1 h
    refine ⟨fullNonEmptyPrompt q parts, ?_⟩
    unfold buildUserPrompt
    rw [if_neg hd, hok]
    rfl

/-- Message assembly succeeds whenever every retrieved chunk carries a
score. -/
theorem itemMessages_ok (retr : String → List DocumentChunk) (q : String)
    (h : ∀ c ∈ retr q, c.score.isSome) :
    ∃ msgs, itemMessages retr q = .ok msgs := by
  have hdocs : ∀ d ∈ ctxDocsFor retr q, d.score.isSome := by
    intro d hd
    obtain ⟨c, hc, rfl⟩ := List.mem_map.mp hd
    exact h c hc
  obtain ⟨P, hP⟩ := buildUserPrompt_ok q (ctxDocsFor retr q) hdocs
  refine ⟨[{ role := "system", content := getSystemPrompt "general" },
           { role := "user", content := P }], ?_⟩
  unfold itemMessages
  rw [hP]
  rfl

/-- One evaluation item never aborts when retrieval is scored. -/
theorem evaluateItem_ok (retr : String → List DocumentChunk) (p : EvalProvider)
    (pname : String) (lat : ℚ) (item : GoldItem)
    (h : ∀ c ∈ retr item.question, c.score.isSome) :
    ∃ r, evaluateItem retr p pname lat item = .ok r := by
  obtain ⟨msgs, hm⟩ := itemMessages_ok retr item.question h
  refine ⟨evaluateItemCore p pname lat item (ctxDocsFor retr item.question) msgs, ?_⟩
  unfold evaluateItem
  rw [hm]
  rfl


/-- The `EvalResult` of an item whose provider call raised `e` (the error
text itself containing no references block): the error-marked answer with
synthesized references, the guarded cost estimate, and the lenient match
flag against the error-marked answer. -/
theorem evaluateItem_chat_error (retr : String → List DocumentChunk)
    (p : EvalProvider) (pname : String) (lat : ℚ) (item : GoldItem)
    (msgs : List Message) (e : String)
    (hm : itemMessages retr item.question = .ok msgs)
    (hc : p.chat msgs = .error e)
    (href : extractReferences ("[Error proveedor] " ++ e) = "") :
    evaluateItem retr p pname lat item = .ok
      { question := item.question, provider := pname,
        answer := errorMarkedAnswer e (ctxDocsFor retr item.question),
        references := formatReferencesFromDocs (ctxDocsFor retr item.question) 3,
        latency_sec := lat,
        est_cost_usd := guardedCost p (approxTokens (strOfMessages msgs))
          (approxTokens (errorMarkedAnswer e (ctxDocsFor retr item.question))),
        exact_match := exactMatchFlag item.answer
          (errorMarkedAnswer e (ctxDocsFor retr item.question)) } := by
  have hcore : evaluateItemCore p pname lat item (ctxDocsFor retr item.question) msgs =
      { question := item.question, provider := pname,
        answer := errorMarkedAnswer e (ctxDocsFor retr item.question),
        references := formatReferencesFromDocs (ctxDocsFor retr item.question) 3,
        latency_sec := lat,
        est_cost_usd := guardedCost p (approxTokens (strOfMessages msgs))
          (approxTokens (errorMarkedAnswer e (ctxDocsFor retr item.question))),
        exact_match := exactMatchFlag item.answer
          (errorMarkedAnswer e (ctxDocsFor retr item.question)) } := by
    unfold evaluateItemCore
    rw [hc]
    dsimp only
    rw [href]
    simp only [if_pos rfl]
    rfl
  unfold evaluateItem
  rw [hm]
  show Except.ok
    (evaluateItemCore p pname lat item (ctxDocsFor retr item.question) msgs) = _
  rw [hcore]

/-- The evaluation loop, started at any iteration index, succeeds on a
scored gold set, produces one result per item, and its `j`-th result is the
`j`-th item's `evaluateItem` value. -/
theorem evaluateProviderGo_spec (retr : String → List DocumentChunk)
    (p : EvalProvider) (pname : String) (lats : Nat → ℚ) :
    ∀ (gold : List GoldItem) (i : Nat),
      (∀ item ∈ gold, ∀ c ∈ retr item.question, c.score.isSome) →
      ∃ rs, evaluateProviderGo retr p pname lats i gold = .ok rs ∧
        rs.length = gold.length ∧
        ∀ j item, gold.get? j = some item →
          ∀ r, evaluateItem retr p pname (lats (i + j)) item = .ok r →
            rs.get? j = some r := by
  intro gold
  induction gold with
  | nil => intro i _; exact ⟨[], rfl, rfl, fun j item hj => by simp at hj⟩
  | cons item rest ih =>
      intro i h
      obtain ⟨r, hr⟩ := evaluateItem_ok retr p pname (lats i) item
        (h item (List.mem_cons_self item rest))
      obtain ⟨rs', hrs', hlen', hspec'⟩ := ih (i + 1)
        (fun it hit => h it (List.mem_cons_of_mem item hit))
      refine ⟨r :: rs', ?_, by simp [hlen'], ?_⟩
      · unfold evaluateProviderGo
        rw [hr, hrs']
        rfl
      · intro j it hj r' hr'
        cases j with
        | zero =>
            have hit : item = it := by simpa using hj
            subst hit
            rw [Nat.add_zero] at hr'
            rw [hr] at hr'
            have : r = r' := by
              injection hr'
            rw [← this]
            rfl
        | succ j' =>
            have hj' : rest.get? j' = some it := by simpa using hj
            have harith : i + 1 + j' = i + (j' + 1) := by omega
            refine Eq.trans ?_ (hspec' j' it hj' r' (by rw [harith]; exact hr'))
            rfl

/-- C4 (amended).  On a scored gold set the batch never terminates early:
`evaluate_provider` yields exactly one `EvalResult` per gold item, and every
item whose provider call raised gets the error-marked answer containing the
raised error text.  However — contrary to the claim — the failing item's
cost is whatever `provider.estimate_cost` returns on the approximate token
counts (`0.0` only when `estimate_cost` itself raises), and its references
field is synthesized from the retrieved documents, so its citation coverage
is *not* zero when retrieval returned documents; only the exact-match flag
is false (when the gold answer does not occur in the error-marked
answer — in particular whenever the gold item carries no answer). -/
theorem c4_batch_error_handling :
    ∀ (retr : String → List DocumentChunk) (p : EvalProvider) (pname : String)
      (lats : Nat → ℚ) (gold : List GoldItem),
      (∀ item ∈ gold, ∀ c ∈ retr item.question, c.score.isSome) →
      ∃ rs, evaluateProvider retr p pname lats gold = .ok rs ∧
        rs.length = gold.length ∧
        ∀ i item, gold.get? i = some item →
          ∀ msgs, itemMessages retr item.question = .ok msgs →
          ∀ e, p.chat msgs = .error e →
          extractReferences ("[Error proveedor] " ++ e) = "" →
          ∃ r, rs.get? i = some r ∧
            r.answer = errorMarkedAnswer e (ctxDocsFor retr item.question) ∧
            r.references = formatReferencesFromDocs (ctxDocsFor retr item.question) 3 ∧
            r.est_cost_usd = guardedCost p (approxTokens (strOfMessages msgs))
              (approxTokens r.answer) ∧
            (pyStrip item.answer = "" → r.exact_match = false) := by
  intro retr p pname lats gold h
  obtain ⟨rs, hrs, hlen, hspec⟩ := evaluateProviderGo_spec retr p pname lats gold 0 h
  refine ⟨rs, hrs, hlen, ?_⟩
  intro i item hi msgs hm e hc href
  have herr := evaluateItem_chat_error retr p pname (lats (0 + i)) item msgs e hm hc href
  refine ⟨_, hspec i item hi _ herr, rfl, rfl, rfl, fun hga => ?_⟩
  show exactMatchFlag item.answer (errorMarkedAnswer e (ctxDocsFor retr item.question)) = false
  unfold exactMatchFlag
  have h0 : lowerStr (pyStrip item.answer) = "" := by rw [hga]; rfl
  simp [h0]

/-- C4 counterexample: one gold item, a provider that raises a simulated
transport failure, and a retrieval oracle returning one scored chunk.  The
batch still produces its one result with the error-marked answer — but that
item's estimated cost is `MockProvider`'s constant `0.0001`, not `0.0`, and
its references field is non-empty (citation coverage 1, not 0), refuting
the claim as stated. -/
theorem c4_counterexample :
    evaluateProvider c4Retr c4Provider "mock" (fun _ => 0) c4Gold = .ok
      [{ question := "¿qué es la matrícula?", provider := "mock",
         answer := "[Error proveedor] fallo simulado de transporte\n\nReferencias:\n[reg, p.15]",
         references := "[reg, p.15]", latency_sec := 0,
         est_cost_usd := mockEstimateCost 0 0, exact_match := false }] ∧
    mockEstimateCost 0 0 ≠ 0 ∧ ("[reg, p.15]" : String) ≠ "" := by
  refine ⟨?_, by with_unfolding_all decide, by decide⟩
  rfl

/-- C4 witness: the amended batch theorem applied to the concrete
one-item failing scenario. -/
theorem c4_witness :
    ∃ rs, evaluateProvider c4Retr c4Provider "mock" (fun _ => 0) c4Gold = .ok rs ∧
      rs.length = c4Gold.length ∧
      ∀ i item, c4Gold.get? i = some item →
        ∀ msgs, itemMessages c4Retr item.question = .ok msgs →
        ∀ e, c4Provider.chat msgs = .error e →
        extractReferences ("[Error proveedor] " ++ e) = "" →
        ∃ r, rs.get? i = some r ∧
          r.answer = errorMarkedAnswer e (ctxDocsFor c4Retr item.question) ∧
          r.references = formatReferencesFromDocs (ctxDocsFor c4Retr item.question) 3 ∧
          r.est_cost_usd = guardedCost c4Provider (approxTokens (strOfMessages msgs))
            (approxTokens r.answer) ∧
          (pyStrip item.answer = "" → r.exact_match = false) :=
  c4_batch_error_handling c4Retr c4Provider "mock" (fun _ => 0) c4Gold (by decide)
